/-
Verification of the NNUE evaluation core of the Sanmill-derived engine.

Shallow embedding of the relevant source constructs:
  - types.h        : Color, operator~(Color), Score packing (make_score,
                     mg_value, eg_value), the DirtyPiece structure, and the
                     startup sequence of main().
  - nnue_architecture.h (src/unnamed/part_000) : network dimensions and the
                     layer pipeline (InputSlice, AffineTransform, ClippedReLU).
  - accumulator.h  (src/unnamed/part_000) : the Accumulator structure.
  - evaluate_nnue.h : the compatibility hash combination and the two
                     alignment-aware deleters.
Machine integers are modelled as Int / Nat with explicit reduction modulo
2^16 / 2^32 where the C++ code performs fixed-width arithmetic.
-/
import Mathlib

namespace Sanmill

/-! ## Colors (types.h lines 137-139, 532-534) -/

/-- Source: enum Color { WHITE, BLACK, COLOR_NB = 2 }; modelled by its
underlying integer value. -/
abbrev Color := Nat

def WHITE : Color := 0

def BLACK : Color := 1

/-- Source: `constexpr Color operator~(Color c) { return static_cast<Color>(c ^ 3); }`
(the comment in the source reads "Toggle color"). -/
def colorCompl (c : Color) : Color := Nat.xor c 3

/-! ## Score packing (types.h lines 424-441)

`Score` is a C `int`; the packing stores the middlegame value in the low
16 bits and the endgame value in the upper 16 bits.  We model `unsigned int`
casts by `% 2^32` and the reinterpretations through the `union` trick by
signed reinterpretation of the low 16 bits. -/

/-- Value of an integer after conversion to C `unsigned int` (32 bits). -/
def uns32 (z : Int) : Int := z % 4294967296

/-- Signed 16-bit reinterpretation of an integer (the union
\x7b uint16_t u; int16_t s; \x7d trick in the source). -/
def sint16 (z : Int) : Int := (z + 32768) % 65536 - 32768

/-- Signed 32-bit reinterpretation (cast of `unsigned int` to `int`). -/
def sint32 (z : Int) : Int := (z + 2147483648) % 4294967296 - 2147483648

/-- Source: `constexpr Score make_score(int mg, int eg) {
  return Score((int)((unsigned int)eg << 16) + mg); }`. -/
def make_score (mg eg : Int) : Int :=
  sint32 (sint32 (uns32 eg * 65536 % 4294967296) + mg)

/-- Source: `inline Value eg_value(Score s)` =
signed 16-bit reinterpretation of `unsigned(s + 0x8000) >> 16`. -/
def eg_value (s : Int) : Int := sint16 (uns32 (s + 32768) / 65536)

/-- Source: `inline Value mg_value(Score s)` =
signed 16-bit reinterpretation of `uint16_t(unsigned(s))`. -/
def mg_value (s : Int) : Int := sint16 (uns32 s)

/-! ## NNUE architecture constants (nnue_architecture.h) -/

def TransformedFeatureDimensions : Nat := 512

def PSQTBuckets : Nat := 8

def LayerStacks : Nat := 8

/-! ## Accumulator (accumulator.h)

Source:
  struct alignas(CacheLineSize) Accumulator \x7b
    std::int16_t accumulation[2][TransformedFeatureDimensions];
    std::int32_t psqtAccumulation[2][PSQTBuckets];
    bool computed[2];
  \x7d; -/

/-- A 16-bit signed integer value. -/
def Sint16T := { z : Int // -32768 ≤ z ∧ z < 32768 }

/-- A 32-bit signed integer value. -/
def Sint32T := { z : Int // -2147483648 ≤ z ∧ z < 2147483648 }

structure Accumulator where
  accumulation : Fin 2 → Fin TransformedFeatureDimensions → Sint16T
  psqtAccumulation : Fin 2 → Fin PSQTBuckets → Sint32T
  computed : Fin 2 → Bool

/-- The raw data of an Accumulator: the two 512-entry signed 16-bit vectors,
the two 8-entry signed 32-bit PSQT vectors, and the two computed flags. -/
def accumulatorRepr (a : Accumulator) :
    (Fin 2 → Fin 512 → Sint16T) × (Fin 2 → Fin 8 → Sint32T) × (Fin 2 → Bool) :=
  (a.accumulation, a.psqtAccumulation, a.computed)

/-! ## DirtyPiece (types.h lines 402-418) -/

/-- Source: `enum Piece : uint8_t`. -/
abbrev PieceV := Fin 256

/-- Source: `enum Square : int`; SQ_NONE = 0 is the off-board sentinel. -/
abbrev SquareV := Int

def SQ_NONE : SquareV := 0

/-- Capacity of each per-record array in DirtyPiece (`Piece piece[12];` etc.). -/
def DirtyPieceCapacity : Nat := 12

structure DirtyPiece where
  dirty_num : Int
  piece : Fin DirtyPieceCapacity → PieceV
  handPiece : Fin DirtyPieceCapacity → PieceV
  handCount : Fin DirtyPieceCapacity → Int
  fromSq : Fin DirtyPieceCapacity → SquareV
  toSq : Fin DirtyPieceCapacity → SquareV

/-- The i-th piece-change record: piece kind, source square, destination
square (squares may be the SQ_NONE sentinel). -/
def DirtyPiece.record (d : DirtyPiece) (i : Fin DirtyPieceCapacity) :
    PieceV × SquareV × SquareV :=
  (d.piece i, d.fromSq i, d.toSq i)

/-! ## Layer pipeline (nnue_architecture.h)

Source:
  using InputLayer = InputSlice<TransformedFeatureDimensions * 2>;
  using HiddenLayer1 = ClippedReLU<AffineTransform<InputLayer, 16>>;
  using HiddenLayer2 = ClippedReLU<AffineTransform<HiddenLayer1, 32>>;
  using OutputLayer = AffineTransform<HiddenLayer2, 1>;
  using Network = Layers::OutputLayer;
The template composition is embedded as a list of stages together with the
running output dimension. -/

inductive Stage where
  | affine (inputDims outputDims : Nat)
  | clip
deriving DecidableEq

structure LayerSpec where
  stages : List Stage
  outputDimensions : Nat
deriving DecidableEq

def inputSlice (d : Nat) : LayerSpec := ⟨[], d⟩

def affineTransform (prev : LayerSpec) (outD : Nat) : LayerSpec :=
  ⟨prev.stages ++ [Stage.affine prev.outputDimensions outD], outD⟩

def clippedReLU (prev : LayerSpec) : LayerSpec :=
  ⟨prev.stages ++ [Stage.clip], prev.outputDimensions⟩

def InputLayer : LayerSpec := inputSlice (TransformedFeatureDimensions * 2)

def HiddenLayer1 : LayerSpec := clippedReLU (affineTransform InputLayer 16)

def HiddenLayer2 : LayerSpec := clippedReLU (affineTransform HiddenLayer1 32)

def OutputLayer : LayerSpec := affineTransform HiddenLayer2 1

def Network : LayerSpec := OutputLayer

/-! ## Compatibility hash (evaluate_nnue.h lines 30-32)

Source:
  constexpr std::uint32_t HashValue =
      FeatureTransformer::get_hash_value() ^ Network::get_hash_value();
The two component hashes are 32-bit values produced by code outside the
excerpt; the combination visible in the source is bitwise XOR. -/

def HashValue (ftHash netHash : Nat) : Nat :=
  Nat.xor (ftHash % 4294967296) (netHash % 4294967296)

/-! ## Alignment-aware deleters (evaluate_nnue.h lines 34-55)

Source: AlignedDeleter calls `ptr->~T(); std_aligned_free(ptr);` and
LargePageDeleter calls `ptr->~T(); aligned_large_pages_free(ptr);`.
Each deleter body is embedded as the ordered list of release steps it
performs. -/

inductive FreeKind where
  | stdAligned
  | largePages
  | generic
deriving DecidableEq

inductive ReleaseStep where
  | destruct
  | free (k : FreeKind)
deriving DecidableEq

def AlignedDeleter : List ReleaseStep :=
  [ReleaseStep.destruct, ReleaseStep.free FreeKind.stdAligned]

def LargePageDeleter : List ReleaseStep :=
  [ReleaseStep.destruct, ReleaseStep.free FreeKind.largePages]

/-! ## Startup sequence (main(), appended to types.h in the excerpt)

Source order of the calls in main():
  pieceMap.init(); variants.init(); CommandLine::init(argc, argv);
  UCI::init(Options); Tune::init(); PSQT::init(...); Bitboards::init();
  Position::init(); Bitbases::init(); Endgames::init();
  Threads.set(size_t(Options["Threads"])); Search::clear();
  Eval::NNUE::init(); UCI::loop(argc, argv); Threads.set(0); ... -/

inductive StartupCall where
  | pieceMapInit
  | variantsInit
  | commandLineInit
  | uciInit
  | tuneInit
  | psqtInit
  | bitboardsInit
  | positionInit
  | bitbasesInit
  | endgamesInit
  | threadsSet
  | searchClear
  | nnueInit
  | uciLoop
  | threadsSetZero
  | variantsClearAll
  | pieceMapClearAll
  | deleteStateMachine
deriving DecidableEq

def mainSequence : List StartupCall :=
  [StartupCall.pieceMapInit, StartupCall.variantsInit,
   StartupCall.commandLineInit, StartupCall.uciInit, StartupCall.tuneInit,
   StartupCall.psqtInit, StartupCall.bitboardsInit, StartupCall.positionInit,
   StartupCall.bitbasesInit, StartupCall.endgamesInit, StartupCall.threadsSet,
   StartupCall.searchClear, StartupCall.nnueInit, StartupCall.uciLoop,
   StartupCall.threadsSetZero, StartupCall.variantsClearAll,
   StartupCall.pieceMapClearAll, StartupCall.deleteStateMachine]

/-! ## Weight loading (spec-modelled)

The loader itself (read_header / read_parameters) is not part of the
excerpted sources; only the compatibility hash and the deleters are. -/

inductive LoadError where
  | incompatibleTopology
  | truncatedData
deriving DecidableEq

/-- A weight source: the fixed-width topology hash field of the header,
followed by the raw parameter bytes. -/
structure WeightSource where
  headerHash : Nat
  paramBytes : List Nat
deriving DecidableEq

/-- Modelled from the spec: the load operation of the Weight Store
(`load(source)` of §4.4 and the binary layout of §6; the C++ loader code is
not in the excerpt).  It first checks the header's topology hash against the
hash computed from the compiled topology and fails with IncompatibleTopology
on mismatch, before looking at any parameter byte; then it checks that enough
parameter bytes are present, failing with TruncatedData otherwise; only then
are the parameter bytes returned. -/
def loadWeights (compiledHash requiredLen : Nat) (s : WeightSource) :
    Except LoadError (List Nat) :=
  if s.headerHash ≠ compiledHash then Except.error LoadError.incompatibleTopology
  else if s.paramBytes.length < requiredLen then Except.error LoadError.truncatedData
  else Except.ok s.paramBytes

/-! ## Incremental accumulator update (spec-modelled)

The feature transformer's refresh/update code is not in the excerpt (only the
Accumulator data structure and DirtyPiece are).  Modelled from the spec §4.2:
a full refresh sums, for every active feature index, that feature's weight
row into the accumulator vector and bucket scalars, starting from the bias;
an incremental update subtracts the weight rows of deactivated features and
adds the weight rows of activated features, the delta being exactly the
set-difference of active features between the two boards. -/

/-- A sparse feature index (element of the feature universe). -/
abbrev FeatureIndex := Nat

/-- Per-perspective accumulator payload: the D-dimensional transformed
feature vector together with the B per-bucket PSQT scalars. -/
abbrev AccVec :=
  (Fin TransformedFeatureDimensions → Int) × (Fin PSQTBuckets → Int)

/-- Modelled from the spec: the per-feature weight rows and biases of the
feature-transformer layer (the concrete parameters live in the Weight Store,
outside the excerpt). -/
structure TransformerParams where
  weightRow : FeatureIndex → AccVec
  biases : AccVec

/-- Modelled from the spec: full refresh — bias plus the sum of the weight
rows of all active features. -/
def fullRefresh (P : TransformerParams) (active : Finset FeatureIndex) : AccVec :=
  P.biases + ∑ f ∈ active, P.weightRow f

/-- Modelled from the spec: incremental update — subtract the weight rows of
removed features and add the weight rows of added features. -/
def incrementalUpdate (P : TransformerParams) (acc : AccVec)
    (removed added : Finset FeatureIndex) : AccVec :=
  acc - ∑ f ∈ removed, P.weightRow f + ∑ f ∈ added, P.weightRow f

/-- Run the incremental update engine along a sequence of board states,
each step's delta being exactly the set-difference of active features
between consecutive states (the DirtyPieceDelta contract of §3). -/
def incrChain (P : TransformerParams) (acc : AccVec)
    (s : Finset FeatureIndex) : List (Finset FeatureIndex) → AccVec
  | [] => acc
  | t :: rest => incrChain P (incrementalUpdate P acc (s \ t) (t \ s)) t rest

/-- The final board state of a sequence of states. -/
def lastState (s : Finset FeatureIndex) :
    List (Finset FeatureIndex) → Finset FeatureIndex
  | [] => s
  | t :: rest => lastState t rest

/-- A side-to-move perspective (white view or black view). -/
abbrev Perspective := Fin 2

end Sanmill

namespace Sanmill

/-! ## Theorems -/

/-- Helper: one incremental step from a fresh accumulator, with the exact
set-difference delta, lands on the full refresh of the successor state. -/
theorem fullRefresh_step (P : TransformerParams) (s t : Finset FeatureIndex) :
    incrementalUpdate P (fullRefresh P s) (s \ t) (t \ s) = fullRefresh P t := by
  unfold fullRefresh incrementalUpdate
  have hA : (∑ f ∈ s \ t, P.weightRow f) + ∑ f ∈ s ∩ t, P.weightRow f
      = ∑ f ∈ s, P.weightRow f := by
    rw [← Finset.sdiff_inter_self_left s t]
    exact Finset.sum_sdiff Finset.inter_subset_left
  have hB : (∑ f ∈ t \ s, P.weightRow f) + ∑ f ∈ t ∩ s, P.weightRow f
      = ∑ f ∈ t, P.weightRow f := by
    rw [← Finset.sdiff_inter_self_left t s]
    exact Finset.sum_sdiff Finset.inter_subset_left
  rw [← hA, ← hB, Finset.inter_comm t s]
  abel

/-- Helper: the incremental chain starting from a full refresh reaches the
full refresh of the last state, for every starting state. -/
theorem incrChain_eq_fullRefresh (P : TransformerParams)
    (states : List (Finset FeatureIndex)) :
    ∀ s : Finset FeatureIndex,
      incrChain P (fullRefresh P s) s states = fullRefresh P (lastState s states) := by
  induction states with
  | nil => intro s; rfl
  | cons t rest ih =>
      intro s
      show incrChain P (incrementalUpdate P (fullRefresh P s) (s \ t) (t \ s)) t rest = _
      rw [fullRefresh_step]
      exact ih t

/-- Claim C1: for any board state reachable by a move sequence, the
accumulator produced by applying the incremental update along that sequence
(subtracting the weight rows of deactivated features and adding the weight
rows of activated features, starting from the fresh accumulator of the
initial state) equals the accumulator produced by a full refresh of the final
board state, for both perspectives. -/
theorem c1_incremental_full_equivalence (P : Perspective → TransformerParams)
    (p : Perspective) (s₀ : Finset FeatureIndex)
    (states : List (Finset FeatureIndex)) :
    incrChain (P p) (fullRefresh (P p) s₀) s₀ states
      = fullRefresh (P p) (lastState s₀ states) :=
  incrChain_eq_fullRefresh (P p) states s₀

/-- Claim C2, counterexample: the claim asserts the hash combination is not
symmetric (some pair of distinct component hashes combines differently when
swapped); the source combines the two hashes with bitwise XOR, which is
symmetric, so no such pair exists. -/
theorem c2_hash_not_symmetric_cex :
    ¬ ∃ a b : Nat, a ≠ b ∧ HashValue a b ≠ HashValue b a := by
  rintro ⟨a, b, -, h⟩
  exact h (Nat.xor_comm _ _)

/-- Claim C2, amended: the CompatibilityHash combines the Feature
Transformer's hash and the Network's hash via bitwise XOR of the two 32-bit
component values; this combination is symmetric — swapping the two operands
never changes the combined result. -/
theorem c2_hash_xor_combination :
    (∀ a b : Nat, HashValue a b = Nat.xor (a % 4294967296) (b % 4294967296)) ∧
    (∀ a b : Nat, HashValue a b = HashValue b a) :=
  ⟨fun _ _ => rfl, fun _ _ => Nat.xor_comm _ _⟩

/-- Claim C3: loading a weight source whose header topology hash does not
match the compiled topology hash fails with IncompatibleTopology, and the
result does not depend on (nor expose) the parameter bytes. -/
theorem c3_hash_rejection (compiledHash requiredLen : Nat) (s : WeightSource)
    (h : s.headerHash ≠ compiledHash) :
    loadWeights compiledHash requiredLen s
      = Except.error LoadError.incompatibleTopology ∧
    ∀ params : List Nat,
      loadWeights compiledHash requiredLen ⟨s.headerHash, params⟩
        = Except.error LoadError.incompatibleTopology := by
  constructor
  · simp [loadWeights, h]
  · intro params
    simp [loadWeights, h]

/-- Witness for Claim C3: compiled hash 1, header hash 2. -/
theorem c3_hash_rejection_witness :
    loadWeights 1 4 ⟨2, [9, 9, 9, 9]⟩
      = Except.error LoadError.incompatibleTopology :=
  (c3_hash_rejection 1 4 ⟨2, [9, 9, 9, 9]⟩ (by decide)).1

/-- Claim C4, counterexample: the claim describes the pipeline as exactly
affine-to-intermediate, clip, affine-to-a-smaller-width, affine-to-one; the
source pipeline has five stages (a second clipping stage follows the second
affine transform), so no widths d1, d2 realize the claimed four-stage shape. -/
theorem c4_pipeline_cex :
    ¬ ∃ d1 d2 : Nat,
      Network.stages
        = [Stage.affine (TransformedFeatureDimensions * 2) d1, Stage.clip,
           Stage.affine d1 d2, Stage.affine d2 1] ∧ d2 < d1 := by
  rintro ⟨d1, d2, h, -⟩
  have h5 : Network.stages.length = 5 := rfl
  rw [h] at h5
  simp at h5

/-- Claim C4, amended: the pipeline applies, in order: an affine transform
from the 1024-dimensional concatenated input to intermediate width 16, a
saturating clipped nonlinearity, a second affine transform to the larger
width 32, another clipped nonlinearity, and a final affine transform to a
single output value. -/
theorem c4_pipeline_order :
    Network.stages
      = [Stage.affine (TransformedFeatureDimensions * 2) 16, Stage.clip,
         Stage.affine 16 32, Stage.clip, Stage.affine 32 1] ∧
    Network.outputDimensions = 1 ∧ (16 : Nat) < 32 :=
  ⟨rfl, rfl, by norm_num⟩

/-- Claim C5: an Accumulator consists of exactly two 512-entry vectors of
16-bit signed integers (one per perspective, D = TransformedFeatureDimensions
= 512), two 8-entry vectors of 32-bit signed integers (B = PSQTBuckets = 8),
and two computed booleans: its data is in bijection with that product. -/
theorem c5_accumulator_shape :
    TransformedFeatureDimensions = 512 ∧ PSQTBuckets = 8 ∧
    Function.Bijective accumulatorRepr := by
  refine ⟨rfl, rfl, ?_, ?_⟩
  · intro a b h
    cases a
    cases b
    simp only [accumulatorRepr, Prod.mk.injEq] at h
    obtain ⟨h1, h2, h3⟩ := h
    subst h1
    subst h2
    subst h3
    rfl
  · rintro ⟨x, y, z⟩
    exact ⟨⟨x, y, z⟩, rfl⟩

/-- Claim C6, counterexample: the claim asserts Weight Store initialization
completes before any worker thread starts; in main(), Eval::NNUE::init() is
never called before Threads.set (which launches the worker threads) — the
threads are created first. -/
theorem c6_init_before_threads_cex :
    ¬ ∃ i j : Fin mainSequence.length, i < j ∧
      mainSequence.get i = StartupCall.nnueInit ∧
      mainSequence.get j = StartupCall.threadsSet := by
  decide

/-- Claim C6, amended: Eval::NNUE::init() runs exactly once in the startup
sequence, after the worker threads are created by Threads.set but before the
UCI command loop starts dispatching work; it is read-only thereafter. -/
theorem c6_nnue_init_once :
    mainSequence.count StartupCall.nnueInit = 1 ∧
    (∃ i j : Fin mainSequence.length, i < j ∧
      mainSequence.get i = StartupCall.threadsSet ∧
      mainSequence.get j = StartupCall.nnueInit) ∧
    (∃ i j : Fin mainSequence.length, i < j ∧
      mainSequence.get i = StartupCall.nnueInit ∧
      mainSequence.get j = StartupCall.uciLoop) := by
  decide

/-- Claim C7: each deleter runs the object's destructor exactly once, as its
first step and before the deallocation; the aligned deleter releases only via
std_aligned_free and the large-page deleter only via
aligned_large_pages_free; neither uses a generic or mismatched deallocator. -/
theorem c7_deleter_pairing :
    AlignedDeleter.count ReleaseStep.destruct = 1 ∧
    LargePageDeleter.count ReleaseStep.destruct = 1 ∧
    AlignedDeleter.get ⟨0, by decide⟩ = ReleaseStep.destruct ∧
    AlignedDeleter.get ⟨1, by decide⟩ = ReleaseStep.free FreeKind.stdAligned ∧
    LargePageDeleter.get ⟨0, by decide⟩ = ReleaseStep.destruct ∧
    LargePageDeleter.get ⟨1, by decide⟩ = ReleaseStep.free FreeKind.largePages ∧
    ReleaseStep.free FreeKind.generic ∉ AlignedDeleter ∧
    ReleaseStep.free FreeKind.generic ∉ LargePageDeleter ∧
    ReleaseStep.free FreeKind.largePages ∉ AlignedDeleter ∧
    ReleaseStep.free FreeKind.stdAligned ∉ LargePageDeleter := by
  decide

/-- Claim C8: the DirtyPiece record arrays have capacity 12, at least 3 (the
maximum pieces a single move can affect), and each slot names the piece kind,
the source square and the destination square (possibly the SQ_NONE
sentinel). -/
theorem c8_dirty_piece_capacity :
    3 ≤ DirtyPieceCapacity ∧ DirtyPieceCapacity = 12 ∧
    ∀ (d : DirtyPiece) (i : Fin DirtyPieceCapacity),
      DirtyPiece.record d i = (d.piece i, d.fromSq i, d.toSq i) :=
  ⟨by decide, rfl, fun _ _ => rfl⟩

/-- Claim C9 (code bug): the claim states that the color-complement operator
toggles WHITE and BLACK, as the source comment "Toggle color" also says; the
code computes `c ^ 3` over the enum WHITE = 0, BLACK = 1, so the complement of
WHITE is 3 and the complement of BLACK is 2 — neither is the opposite color. -/
theorem c9_color_compl_bug :
    colorCompl WHITE = 3 ∧ colorCompl BLACK = 2 ∧
    colorCompl WHITE ≠ BLACK ∧ colorCompl BLACK ≠ WHITE := by
  decide

/-- Claim C10: the Score packing round-trips exactly: for every middlegame
value mg and endgame value eg representable as signed 16-bit integers,
`mg_value (make_score mg eg) = mg` and `eg_value (make_score mg eg) = eg`. -/
theorem c10_score_roundtrip (mg eg : Int)
    (hmg₁ : -32768 ≤ mg) (hmg₂ : mg < 32768)
    (heg₁ : -32768 ≤ eg) (heg₂ : eg < 32768) :
    mg_value (make_score mg eg) = mg ∧ eg_value (make_score mg eg) = eg := by
  unfold mg_value eg_value make_score sint16 sint32 uns32
  omega

/-- Witness for Claim C10 at mg = -7, eg = 5. -/
theorem c10_score_roundtrip_witness :
    mg_value (make_score (-7) 5) = -7 ∧ eg_value (make_score (-7) 5) = 5 :=
  c10_score_roundtrip (-7) 5 (by norm_num) (by norm_num) (by norm_num) (by norm_num)

end Sanmill
